import Mathlib

/-!
Verification model of the YuiBot music cog.

The definitions below are a shallow embedding of `src/cogs/music.py` and
`src/core/audio_loader.py`.  Pure control flow is translated directly;
the discord voice client is modelled by its three boolean queries
(`is_connected`, `is_playing`, `is_paused`) that the cog reads, and the
`asyncio.Queue` by a FIFO list (`put` appends at the tail, `get` pops the
head, which is exactly the behaviour of `asyncio.Queue` used from a single
event loop).  The `disconnect_timer` task is modelled by a boolean that is
true exactly when a pending (not done, not cancelled) timer task exists.
-/

namespace YuiBot

/-- A resolved track, mirroring the fields that `YTDLSource.__init__`
(`src/core/audio_loader.py` lines 43-51) stores on the source object.
The requester is an opaque user id. -/
structure Track where
  title : Option String
  url : Option String
  stream_url : Option String
  duration : Option Nat
  thumbnail : Option String
  requester : Nat
  deriving DecidableEq

/-- Per-session engine state: the fields of `GuildState`
(`src/cogs/music.py` lines 15-22) that the playback engine reads or
writes, together with the status of this guilds voice client
(`guild.voice_client`) and a ghost field `played` recording, in order,
every track that has been assigned to `current_track` by `play_next`.
`timerLive` is true exactly when `disconnect_timer` holds a pending task. -/
structure PlayerState where
  queue : List Track
  current_track : Option Track
  timerLive : Bool
  connected : Bool
  vcPlaying : Bool
  vcPaused : Bool
  played : List Track
  deriving DecidableEq

/-- The state of a session before any command has touched it: a fresh
`GuildState.__init__` and no voice client. -/
def initState : PlayerState :=
  { queue := [], current_track := none, timerLive := false,
    connected := false, vcPlaying := false, vcPaused := false, played := [] }

/-- `MusicCog.play_next` (`src/cogs/music.py` lines 136-168), state
effects only.  Not connected: return (line 141).  Empty queue: clear
`current_track`, cancel any pending timer and arm a fresh one
(lines 144-152).  Otherwise: cancel the pending timer, pop the queue
head, make it current and start the voice client on it (lines 154-168);
the ghost `played` records the new current track. -/
def play_next (s : PlayerState) : PlayerState :=
  if !s.connected then s
  else
    match s.queue with
    | [] =>
      { s with current_track := none, timerLive := true }
    | t :: rest =>
      { s with queue := rest, current_track := some t, timerLive := false,
               vcPlaying := true, played := s.played ++ [t] }

/-- The `after_playing` callback (`src/cogs/music.py` lines 162-166):
the finished source is no longer playing, the error (if any) is only
logged, and `play_next` is scheduled. -/
def after_playing (_error : Option String) (s : PlayerState) : PlayerState :=
  play_next { s with vcPlaying := false }

/-- The state effect of a successful `MusicCog.ensure_voice`
(`src/cogs/music.py` lines 103-132): the bot ends up connected to the
callers channel; nothing else of the modelled state changes. -/
def ensure_voice (s : PlayerState) : PlayerState :=
  { s with connected := true }

/-- The `/play` command `MusicCog.play` (`src/cogs/music.py` lines
206-237).  `inVoice = false` models `ensure_voice` failing (caller not
in a voice channel): the handler returns before touching the state.
`res` is the outcome of `YTDLSource.create_source`: on an exception the
handler returns after the error reply (lines 221-224), leaving the
just-connected state otherwise untouched; on success the track is put
on the queue (line 226) and, when the voice client is neither playing
nor paused, `play_next` runs at once (lines 228-229). -/
def playCmd (s : PlayerState) (inVoice : Bool) (res : Except String Track) :
    PlayerState :=
  if !inVoice then s
  else
    let s1 := ensure_voice s
    match res with
    | Except.error _ => s1
    | Except.ok t =>
      let s2 := { s1 with queue := s1.queue ++ [t] }
      if !s2.vcPlaying && !s2.vcPaused then play_next s2 else s2

/-- Session-level effect of `MusicCog.full_stop` (`src/cogs/music.py`
lines 93-101): `state.clear()` empties the queue, resets
`current_track` and cancels a pending timer; `vc.stop()` and
`vc.disconnect(force=True)` leave the voice client stopped and gone.
The ghost history is kept. -/
def full_stop_session (s : PlayerState) : PlayerState :=
  { queue := [], current_track := none, timerLive := false,
    connected := false, vcPlaying := false, vcPaused := false,
    played := s.played }

/-- Events of a single session, at the granularity at which the asyncio
event loop serialises them: an accepted `/play` (resolution succeeded),
a track completion (the `after_playing` callback, carrying the optional
playback error; a `/skip` lands here too since `vc.stop()` only triggers
this callback), and a full stop. -/
inductive Ev where
  | enq (t : Track)
  | finish (e : Option String)
  | stopE
  deriving DecidableEq

/-- One event step. -/
def stepEv (s : PlayerState) : Ev → PlayerState
  | Ev.enq t => playCmd s true (Except.ok t)
  | Ev.finish e => after_playing e s
  | Ev.stopE => full_stop_session s

/-- Run a list of events from a state. -/
def runEv (s : PlayerState) : List Ev → PlayerState
  | [] => s
  | ev :: evs => runEv (stepEv s ev) evs

/-- The tracks enqueued by a trace, in order. -/
def enqueuedOf : List Ev → List Track
  | [] => []
  | Ev.enq t :: evs => t :: enqueuedOf evs
  | Ev.finish _ :: evs => enqueuedOf evs
  | Ev.stopE :: evs => enqueuedOf evs

/-- The timer invariant of the spec: a pending `disconnect_timer` exists
iff `current_track` is empty and the session is connected. -/
def timerInvariant (s : PlayerState) : Prop :=
  s.timerLive = true ↔ (s.current_track = none ∧ s.connected = true)

instance (s : PlayerState) : Decidable (timerInvariant s) := by
  unfold timerInvariant; infer_instance

/-- Reachability invariant of the session state machine: the voice
client is never paused (no pause event is modelled), a playing client
is connected and has a current track, a non-empty queue only exists
while playing, and the timer invariant holds. -/
def InvS (s : PlayerState) : Prop :=
  s.vcPaused = false ∧
  (s.vcPlaying = true → s.connected = true ∧ s.current_track ≠ none) ∧
  (s.queue ≠ [] → s.vcPlaying = true) ∧
  timerInvariant s

/-!
Finer-grained model of the completion path, for the enqueue/advance
race.  A track completion is not atomic in the source: the discord
voice-player thread first stops rendering (so `vc.is_playing()` becomes
false) and then `after_playing` hands `play_next` to the event loop via
`asyncio.run_coroutine_threadsafe` (line 166), where it runs as a
separate callback.  Between those two steps the event loop can run the
tail of a `/play` handler, which reads `vc.is_playing()` directly
(line 228).  `advancePending` records a scheduled, not yet executed,
`play_next` coroutine.
-/

/-- Session state plus a pending completion callback. -/
structure RaceState where
  sess : PlayerState
  advancePending : Bool
  deriving DecidableEq

/-- The voice-player thread finishes the current source: rendering stops
and `play_next` is scheduled onto the event loop. -/
def finishSignal (r : RaceState) : RaceState :=
  { sess := { r.sess with vcPlaying := false }, advancePending := true }

/-- The event loop executes a scheduled `play_next`, if one is pending. -/
def advanceRun (r : RaceState) : RaceState :=
  if r.advancePending then
    { sess := play_next r.sess, advancePending := false }
  else r

/-- The tail of an accepted `/play` runs on the event loop. -/
def enqRace (r : RaceState) (t : Track) : RaceState :=
  { r with sess := playCmd r.sess true (Except.ok t) }

/-!
Registry level: `MusicCog.guild_states` and the per-guild voice clients,
for the commands that manipulate the registry.
-/

/-- Lookup in an association list with `Nat` keys, modelling a Python
dict read (`d.get(k)` or `k in d`). -/
def dictGet {α : Type} (k : Nat) : List (Nat × α) → Option α
  | [] => none
  | p :: l => if p.1 = k then some p.2 else dictGet k l

/-- The queries of a `discord.VoiceClient` that the cog reads. -/
structure VC where
  connected : Bool
  playing : Bool
  paused : Bool
  deriving DecidableEq

/-- A `GuildState` as stored in `MusicCog.guild_states`
(`src/cogs/music.py` lines 15-22): the queue, the current track and
whether a pending `disconnect_timer` task exists.  The voice client is
not part of the object (the cog reads `guild.voice_client`), so the
registry model tracks it separately. -/
structure GuildState where
  queue : List Track
  current_track : Option Track
  timerLive : Bool
  deriving DecidableEq

/-- `GuildState.__init__` (lines 18-22). -/
def freshG : GuildState :=
  { queue := [], current_track := none, timerLive := false }

/-- Process state for the registry claims: `MusicCog.guild_states`
(a dict, modelled as an association list with unique keys) and the
guild id to voice client map (`guild.voice_client`; a missing key means
the voice client is `None`). -/
structure World where
  guild_states : List (Nat × GuildState)
  voice_clients : List (Nat × VC)
  deriving DecidableEq

/-- `MusicCog.get_guild_state` (lines 88-91): return the stored state,
inserting a fresh one first when the guild has no entry. -/
def get_guild_state (w : World) (gid : Nat) : GuildState × World :=
  match dictGet gid w.guild_states with
  | some g => (g, w)
  | none => (freshG, { w with guild_states := w.guild_states ++ [(gid, freshG)] })

/-- `MusicCog.full_stop` (lines 93-101).  `state.clear()` mutates the
callers `GuildState` object in place; every caller passes the object
obtained from `get_guild_state`, so when the guild has a registry entry
the clear lands on that entry (the map below).  Then, if a voice client
exists, it is stopped and force-disconnected (`guild.voice_client`
becomes `None`), and finally the registry entry is deleted when
present. -/
def full_stop (w : World) (gid : Nat) : World :=
  let reg1 := w.guild_states.map (fun p => if p.1 == gid then (p.1, freshG) else p)
  let reg2 := if (dictGet gid reg1).isSome
              then reg1.filter (fun p => p.1 != gid) else reg1
  let vcs1 := match dictGet gid w.voice_clients with
              | some _ => w.voice_clients.filter (fun p => p.1 != gid)
              | none => w.voice_clients
  { guild_states := reg2, voice_clients := vcs1 }

/-- Replies of the `/stop` command. -/
inductive StopReply where
  | stopped
  | notConnected
  deriving DecidableEq

/-- The `/stop` command `MusicCog.stop` (lines 249-256): fetch (and, on
a miss, create) the guild state, then full-stop when a voice client
object exists, else only reply that the bot is not connected. -/
def stopCmd (w : World) (gid : Nat) : World × StopReply :=
  let gw := get_guild_state w gid
  match dictGet gid gw.2.voice_clients with
  | some _ => (full_stop gw.2 gid, StopReply.stopped)
  | none => (gw.2, StopReply.notConnected)

/-- The read-only `/queue` command `MusicCog.queue` (lines 259-289):
fetch (and, on a miss, create) the guild state and render a snapshot of
the current track and of the queues internal deque. -/
def queueCmd (w : World) (gid : Nat) : World × Option Track × List Track :=
  let gw := get_guild_state w gid
  (gw.2, gw.1.current_track, gw.1.queue)

/-- `MusicCog.disconnect_after_timeout` (lines 188-200), the body that
runs once the 300 second sleep elapses: bail out when the guild is gone,
bail out when the registry has no entry for it, and tear the session
down only when a voice client exists, is connected and is not playing. -/
def disconnect_after_timeout (w : World) (gid : Nat) (guildExists : Bool) :
    World :=
  if !guildExists then w
  else
    match dictGet gid w.guild_states with
    | none => w
    | some _ =>
      match dictGet gid w.voice_clients with
      | none => w
      | some v => if v.connected && !v.playing then full_stop w gid else w

/-!
Resolver model: `YTDLSource.create_source` (`src/core/audio_loader.py`
lines 64-125).  The two `extract_info` calls are oracles supplied as
arguments; `none` stands for an extraction that returned `None`.
-/

/-- A yt-dlp info dict, restricted to the keys the adapter reads.  The
`entries` key is present exactly when the query resolved to a playlist
or search collection; `self` carries the dicts own track fields for the
single-item case. -/
structure YTEntry where
  title : Option String
  url : Option String
  webpage_url : Option String
  duration : Option Nat
  thumbnail : Option String
  deriving DecidableEq

/-- An extraction result: an optional `entries` collection plus the
dicts own fields. -/
structure YTData where
  entries : Option (List YTEntry)
  self : YTEntry
  deriving DecidableEq

/-- Python truthiness of an optional string: `None` and the empty string
are falsy. -/
def falsy : Option String → Bool
  | none => true
  | some s => s = ""

/-- Python `a or b` on optional strings. -/
def pyOr (a b : Option String) : Option String :=
  if falsy a then b else a

/-- Lines 89-95 (and the analogous lines 110-111 of the second phase):
when the dict has an `entries` key, take the first entry; an empty
collection raises (`ValueError` in phase one, `IndexError` in phase
two), surfaced as an error with the given message. -/
def pickFirstEntry (d : YTData) (failMsg : String) : Except String YTEntry :=
  match d.entries with
  | some [] => Except.error failMsg
  | some (e :: _) => Except.ok e
  | none => Except.ok d.self

/-- `YTDLSource.create_source` (lines 64-125) as a function of the two
extraction oracles.  Phase one picks a single candidate; its
`url or webpage_url` is re-extracted in phase two; the processed dict
(first entry again, when a collection) must carry a stream url, and the
final `YTDLSource` stores the fields as `__init__` does (lines 43-51). -/
def create_source (search : String) (requester : Nat)
    (extract1 : Option YTData) (extract2 : String → Option YTData) :
    Except String Track :=
  match extract1 with
  | none => Except.error ("Could not find anything matching " ++ search)
  | some data =>
    match pickFirstEntry data ("Could not find anything matching " ++ search) with
    | Except.error m => Except.error m
    | Except.ok pi =>
      let webpage := pyOr pi.url pi.webpage_url
      if falsy webpage then
        Except.error ("Could not extract a valid URL for " ++ search)
      else
        match extract2 (webpage.getD "") with
        | none => Except.error ("Could not process audio for " ++ search)
        | some pd =>
          match pickFirstEntry pd "list index out of range" with
          | Except.error m => Except.error m
          | Except.ok fin =>
            if falsy fin.url then
              Except.error ("Could not get stream URL for " ++ search)
            else
              Except.ok
                { title := fin.title,
                  url := pyOr fin.webpage_url fin.url,
                  stream_url := fin.url,
                  duration := fin.duration,
                  thumbnail := fin.thumbnail,
                  requester := requester }

/-!
Concrete data used by witnesses and counterexamples.
-/

/-- A concrete track. -/
def trkA : Track :=
  { title := some "a", url := some "ua", stream_url := some "sa",
    duration := some 30, thumbnail := none, requester := 7 }

/-- A second concrete track. -/
def trkB : Track :=
  { title := some "b", url := some "ub", stream_url := some "sb",
    duration := none, thumbnail := some "tb", requester := 8 }

/-- A third concrete track. -/
def trkX : Track :=
  { title := some "x", url := some "ux", stream_url := some "sx",
    duration := some 5, thumbnail := none, requester := 9 }

/-- Race scenario start state: `trkA` is current and rendering, the
queue is empty, the session is connected. -/
def raceStart : RaceState :=
  { sess := { queue := [], current_track := some trkA, timerLive := false,
              connected := true, vcPlaying := true, vcPaused := false,
              played := [trkA] },
    advancePending := false }

/-- A world with one active session: guild 1 is playing `trkA` with
`trkB` queued. -/
def wActive : World :=
  { guild_states := [(1, { queue := [trkB], current_track := some trkA,
                           timerLive := false })],
    voice_clients := [(1, { connected := true, playing := true,
                            paused := false })] }

/-- The empty world. -/
def wEmpty : World := { guild_states := [], voice_clients := [] }

/-- A busy session: `trkA` current and rendering, `trkB` queued. -/
def sBusy : PlayerState :=
  { queue := [trkB], current_track := some trkA, timerLive := false,
    connected := true, vcPlaying := true, vcPaused := false,
    played := [trkA] }

/-- A concrete extraction entry. -/
def entE : YTEntry :=
  { title := some "first", url := some "u1", webpage_url := some "w1",
    duration := some 3, thumbnail := none }

/-- Another concrete extraction entry. -/
def entF : YTEntry :=
  { title := some "second", url := some "u2", webpage_url := some "w2",
    duration := none, thumbnail := some "t2" }

/-- A phase-one extraction that returned a two-element collection. -/
def dColl : YTData := { entries := some [entE, entF], self := entF }

/-- A phase-one extraction that returned an empty collection. -/
def dEmpty : YTData := { entries := some [], self := entF }

/-- A world whose only session is actively playing. -/
def wPlaying : World :=
  { guild_states := [(1, freshG)],
    voice_clients := [(1, { connected := true, playing := true,
                            paused := false })] }

/-!
Helper lemmas.
-/

/-- One step of the engine conserves the enqueue accounting: the tracks
that ever became current followed by the still-queued tracks grow
exactly by the tracks the event enqueues (stop events excluded). -/
theorem step_account (s : PlayerState) (ev : Ev) (h : ev ≠ Ev.stopE) :
    (stepEv s ev).played ++ (stepEv s ev).queue =
      (s.played ++ s.queue) ++ enqueuedOf [ev] := by
  obtain ⟨q, c, tl, cn, vp, vpa, pl⟩ := s
  cases ev with
  | enq t =>
    cases vp <;> cases vpa <;> cases q <;>
      simp [stepEv, playCmd, ensure_voice, play_next, enqueuedOf]
  | finish e =>
    cases cn <;> cases q <;>
      simp [stepEv, after_playing, play_next, enqueuedOf]
  | stopE => exact absurd rfl h

/-- Trace-level enqueue accounting. -/
theorem runEv_account (evs : List Ev) (s : PlayerState)
    (h : Ev.stopE ∉ evs) :
    (runEv s evs).played ++ (runEv s evs).queue =
      (s.played ++ s.queue) ++ enqueuedOf evs := by
  induction evs generalizing s with
  | nil => simp [runEv, enqueuedOf]
  | cons ev evs ih =>
    have hne : ev ≠ Ev.stopE := fun he => h (he ▸ List.mem_cons_self ev evs)
    have h2 : Ev.stopE ∉ evs := fun hm => h (List.mem_cons_of_mem ev hm)
    show (runEv (stepEv s ev) evs).played ++ (runEv (stepEv s ev) evs).queue = _
    rw [ih (stepEv s ev) h2, step_account s ev hne]
    cases ev with
    | enq t => simp [enqueuedOf]
    | finish e => simp [enqueuedOf]
    | stopE => exact absurd rfl hne

/-- The reachability invariant holds initially. -/
theorem InvS_init : InvS initState := by
  simp [InvS, initState, timerInvariant]

/-- Every event step preserves the reachability invariant. -/
theorem InvS_step (s : PlayerState) (ev : Ev) (h : InvS s) :
    InvS (stepEv s ev) := by
  obtain ⟨q, c, tl, cn, vp, vpa, pl⟩ := s
  cases ev with
  | enq t =>
    cases vp <;> cases vpa <;> cases cn <;> cases c <;> cases q <;> cases tl <;>
      simp_all [stepEv, playCmd, ensure_voice, play_next, InvS, timerInvariant]
  | finish e =>
    cases vp <;> cases vpa <;> cases cn <;> cases c <;> cases q <;> cases tl <;>
      simp_all [stepEv, after_playing, play_next, InvS, timerInvariant]
  | stopE =>
    simp [stepEv, full_stop_session, InvS, timerInvariant]

/-- The reachability invariant holds in every state reachable from a
fresh session. -/
theorem InvS_run (evs : List Ev) : InvS (runEv initState evs) := by
  suffices h : ∀ s, InvS s → InvS (runEv s evs) from h initState InvS_init
  induction evs with
  | nil => intro s hs; exact hs
  | cons ev evs ih => intro s hs; exact ih (stepEv s ev) (InvS_step s ev hs)

/-- An accepted `/play` into a connected idle session with an empty
queue immediately plays the new track. -/
theorem play_into_idle (s : PlayerState) (t : Track)
    (hc : s.connected = true) (hcur : s.current_track = none)
    (hp : s.vcPlaying = false) (hpa : s.vcPaused = false)
    (hq : s.queue = []) :
    playCmd s true (Except.ok t) =
      { s with current_track := some t, vcPlaying := true,
               timerLive := false, played := s.played ++ [t] } := by
  obtain ⟨q, c, tl, cn, vp, vpa, pl⟩ := s
  simp only at hc hcur hp hpa hq
  subst hc; subst hcur; subst hp; subst hpa; subst hq
  simp [playCmd, ensure_voice, play_next]

/-- An accepted `/play` into a session whose voice client is playing
only appends to the queue. -/
theorem play_while_playing (s : PlayerState) (t : Track)
    (hc : s.connected = true) (hp : s.vcPlaying = true) :
    playCmd s true (Except.ok t) = { s with queue := s.queue ++ [t] } := by
  obtain ⟨q, c, tl, cn, vp, vpa, pl⟩ := s
  simp only at hc hp
  subst hc; subst hp
  simp [playCmd, ensure_voice]

/-- Looking up a key removed by filtering yields nothing. -/
theorem lookup_filter_ne {α : Type} (l : List (Nat × α)) (k : Nat) :
    dictGet k (l.filter (fun p => p.1 != k)) = none := by
  induction l with
  | nil => rfl
  | cons p l ih =>
    by_cases h : p.1 = k
    · simp [List.filter, h, ih]
    · have hb : (p.1 != k) = true := by simp [h]
      simp [List.filter, dictGet, h, hb, ih]

/-- Rewriting the entry of an absent key changes nothing. -/
theorem map_clear_of_lookup_none (l : List (Nat × GuildState)) (k : Nat)
    (h : dictGet k l = none) :
    l.map (fun p => if p.1 = k then (p.1, freshG) else p) = l := by
  induction l with
  | nil => rfl
  | cons p l ih =>
    by_cases hp : p.1 = k
    · simp [dictGet, hp] at h
    · have h2 : dictGet k l = none := by
        simpa [dictGet, hp] using h
      simp [hp, ih h2]

/-- Looking up a key appended to a list that lacks it finds the new
value. -/
theorem lookup_append_fresh {α : Type} (l : List (Nat × α)) (k : Nat)
    (v : α) (h : dictGet k l = none) :
    dictGet k (l ++ [(k, v)]) = some v := by
  induction l with
  | nil => simp [dictGet]
  | cons p l ih =>
    by_cases hp : p.1 = k
    · simp [dictGet, hp] at h
    · have h2 : dictGet k l = none := by
        simpa [dictGet, hp] using h
      simp [dictGet, hp, ih h2]

/-- After a full stop the guild has no registry entry. -/
theorem full_stop_lookup_gs (w : World) (g : Nat) :
    dictGet g (full_stop w g).guild_states = none := by
  show dictGet g
      (if (dictGet g (w.guild_states.map _)).isSome then _ else _) = none
  cases ho : dictGet g
      (w.guild_states.map (fun p => if p.1 == g then (p.1, freshG) else p)) with
  | none => simpa [ho] using ho
  | some v => simp [ho, lookup_filter_ne]

/-- After a full stop the guild has no voice client. -/
theorem full_stop_lookup_vc (w : World) (g : Nat) :
    dictGet g (full_stop w g).voice_clients = none := by
  show dictGet g
      (match dictGet g w.voice_clients with
       | some _ => w.voice_clients.filter (fun p => p.1 != g)
       | none => w.voice_clients) = none
  cases ho : dictGet g w.voice_clients with
  | none => simp [ho]
  | some v => simp [ho, lookup_filter_ne]

/-- A full stop of a session with no registry entry and no voice client
changes nothing. -/
theorem full_stop_of_absent (w : World) (g : Nat)
    (h1 : dictGet g w.guild_states = none)
    (h2 : dictGet g w.voice_clients = none) :
    full_stop w g = w := by
  obtain ⟨gs, vcs⟩ := w
  simp only at h1 h2
  simp [full_stop, map_clear_of_lookup_none gs g h1, h1, h2]

/-!
Claim theorems.
-/

/-- Claim C1: for every sequence of accepted enqueue calls on a session,
with track completions interleaved arbitrarily and no stop, the order in
which tracks become current via play_next equals the enqueue order: the
played history followed by the still-pending queue is exactly the list
of enqueued tracks in enqueue order, so the played history is an initial
segment of the enqueue order and no reordering ever occurs. -/
theorem C1_fifo_order (evs : List Ev) (h : Ev.stopE ∉ evs) :
    (runEv initState evs).played ++ (runEv initState evs).queue =
      enqueuedOf evs ∧
    ∃ pending, (runEv initState evs).played ++ pending = enqueuedOf evs := by
  have hacc := runEv_account evs initState h
  simp [initState] at hacc
  exact ⟨hacc, (runEv initState evs).queue, hacc⟩

/-- Witness for C1 at a concrete trace: enqueue two tracks, then the
first completes. -/
theorem C1_fifo_order_witness :
    (runEv initState [Ev.enq trkA, Ev.enq trkB, Ev.finish none]).played ++
        (runEv initState [Ev.enq trkA, Ev.enq trkB, Ev.finish none]).queue =
      enqueuedOf [Ev.enq trkA, Ev.enq trkB, Ev.finish none] ∧
    ∃ pending,
      (runEv initState [Ev.enq trkA, Ev.enq trkB, Ev.finish none]).played ++
        pending = enqueuedOf [Ev.enq trkA, Ev.enq trkB, Ev.finish none] :=
  C1_fifo_order [Ev.enq trkA, Ev.enq trkB, Ev.finish none] (by decide)

/-- Claim C2 counterexample: immediately after the connect transition
(a successful ensure_voice on a fresh idle session, as happens before
resolution in the /play handler) the session is connected with no
current track, yet no inactivity timer is pending, so the stated iff
fails at that transition even though it held before it. -/
theorem C2_timer_counterexample :
    timerInvariant initState ∧
    (ensure_voice initState).current_track = none ∧
    (ensure_voice initState).connected = true ∧
    ¬ timerInvariant (ensure_voice initState) := by decide

/-- Claim C2 as amended: along every trace of enqueue, advance (the
play_next transition, also reached by skip completion, with or without
a playback error) and full-stop transitions from a fresh session, a
pending inactivity timer exists iff the current track is empty and the
session is connected; only the bare connect transition breaks the iff. -/
theorem C2_timer_invariant (evs : List Ev) :
    timerInvariant (runEv initState evs) :=
  (InvS_run evs).2.2.2

/-- Claim C3 counterexample: on a connected playing session, the first
/stop removes the registry entry, but a second /stop re-creates a fresh
entry through get_guild_state before seeing that no voice client exists,
so the end state after two invocations differs from the end state after
one and the registry has an entry for the session again. -/
theorem C3_stop_counterexample :
    dictGet 1 (stopCmd wActive 1).1.guild_states = none ∧
    dictGet 1 (stopCmd (stopCmd wActive 1).1 1).1.guild_states =
      some freshG ∧
    (stopCmd (stopCmd wActive 1).1 1).1 ≠ (stopCmd wActive 1).1 := by decide

/-- Claim C3 as amended: full_stop itself is idempotent and ends with no
registry entry (hence no current track and no queue for the session) and
no voice client; a second /stop command is answered as not connected
rather than erroring, but it re-inserts a fresh empty GuildState into
the registry. -/
theorem C3_full_stop_idem (w : World) (gid : Nat) :
    full_stop (full_stop w gid) gid = full_stop w gid ∧
    dictGet gid (full_stop w gid).guild_states = none ∧
    dictGet gid (full_stop w gid).voice_clients = none ∧
    (stopCmd (full_stop w gid) gid).2 = StopReply.notConnected ∧
    dictGet gid (stopCmd (full_stop w gid) gid).1.guild_states =
      some freshG := by
  have hgs := full_stop_lookup_gs w gid
  have hvc := full_stop_lookup_vc w gid
  refine ⟨full_stop_of_absent _ _ hgs hvc, hgs, hvc, ?_, ?_⟩ <;>
    simp [stopCmd, get_guild_state, hgs, hvc, lookup_append_fresh _ _ _ hgs]

/-- Claim C4: evaluation of the enqueue/advance race at the granularity
the runtime provides.  In the window where the player thread has already
cleared the playing flag but the scheduled play_next has not yet run, an
accepted /play of X self-starts X, and the late advance then clears
current_track and arms the timer while the voice client still renders X,
so the final state is not the claimed one; in the two interleavings
where the completion is not split around the enqueue the claimed final
state does hold. -/
theorem C4_race_evaluation :
    ((advanceRun (enqRace (finishSignal raceStart) trkX)).sess.current_track
        = none ∧
     (advanceRun (enqRace (finishSignal raceStart) trkX)).sess.queue = [] ∧
     (advanceRun (enqRace (finishSignal raceStart) trkX)).sess.timerLive
        = true ∧
     (advanceRun (enqRace (finishSignal raceStart) trkX)).sess.vcPlaying
        = true) ∧
    ((advanceRun (finishSignal (enqRace raceStart trkX))).sess.current_track
        = some trkX ∧
     (advanceRun (finishSignal (enqRace raceStart trkX))).sess.queue = []) ∧
    ((enqRace (advanceRun (finishSignal raceStart)) trkX).sess.current_track
        = some trkX ∧
     (enqRace (advanceRun (finishSignal raceStart)) trkX).sess.queue = []) := by
  decide

/-- Claim C5: a playback error is handled exactly as a normal
completion: the callback transition does not depend on the error, the
next queued track (if any) immediately becomes current with the voice
client playing it and no timer pending, and on an empty queue the
session goes idle with the inactivity timer armed. -/
theorem C5_error_advances (e : Option String) (s : PlayerState)
    (hc : s.connected = true) :
    after_playing e s = after_playing none s ∧
    (∀ t rest, s.queue = t :: rest →
      (after_playing e s).current_track = some t ∧
      (after_playing e s).queue = rest ∧
      (after_playing e s).vcPlaying = true ∧
      (after_playing e s).timerLive = false) ∧
    (s.queue = [] →
      (after_playing e s).current_track = none ∧
      (after_playing e s).timerLive = true) := by
  obtain ⟨q, c, tl, cn, vp, vpa, pl⟩ := s
  simp only at hc
  subst hc
  refine ⟨rfl, ?_, ?_⟩
  · intro t rest hq
    simp only at hq
    subst hq
    simp [after_playing, play_next]
  · intro hq
    simp only at hq
    subst hq
    simp [after_playing, play_next]

/-- Witness for C5 on a busy session with an erroring completion. -/
theorem C5_error_advances_witness :
    after_playing (some "boom") sBusy = after_playing none sBusy ∧
    (∀ t rest, sBusy.queue = t :: rest →
      (after_playing (some "boom") sBusy).current_track = some t ∧
      (after_playing (some "boom") sBusy).queue = rest ∧
      (after_playing (some "boom") sBusy).vcPlaying = true ∧
      (after_playing (some "boom") sBusy).timerLive = false) ∧
    (sBusy.queue = [] →
      (after_playing (some "boom") sBusy).current_track = none ∧
      (after_playing (some "boom") sBusy).timerLive = true) :=
  C5_error_advances (some "boom") sBusy rfl

/-- Claim C6: in every reachable session state, an accepted enqueue
into an idle connected session (no current track) makes the enqueued
track itself current at once with the voice client playing and no
pending timer (enqueue-into-idle is play-now), while an accepted
enqueue into a playing session changes nothing but the queue, which
grows by the track at the tail. -/
theorem C6_enqueue_behaviour (evs : List Ev) (t : Track) :
    ((runEv initState evs).connected = true →
      (runEv initState evs).current_track = none →
      playCmd (runEv initState evs) true (Except.ok t) =
        { runEv initState evs with
            current_track := some t, vcPlaying := true, timerLive := false,
            played := (runEv initState evs).played ++ [t] }) ∧
    ((runEv initState evs).vcPlaying = true →
      playCmd (runEv initState evs) true (Except.ok t) =
        { runEv initState evs with
            queue := (runEv initState evs).queue ++ [t] }) := by
  obtain ⟨hpa, hpl, hq, htl⟩ := InvS_run evs
  constructor
  · intro hc hcur
    have hp : (runEv initState evs).vcPlaying = false := by
      cases hvp : (runEv initState evs).vcPlaying
      · rfl
      · exact absurd hcur (hpl hvp).2
    have hqe : (runEv initState evs).queue = [] := by
      by_contra hne
      have hqq := hq hne
      rw [hp] at hqq
      exact absurd hqq (by decide)
    exact play_into_idle _ t hc hcur hp hpa hqe
  · intro hvp
    exact play_while_playing _ t (hpl hvp).1 hvp

/-- Witness for C6: enqueue into the idle state reached by playing one
track to completion, and enqueue into the state still playing it. -/
theorem C6_enqueue_behaviour_witness :
    (playCmd (runEv initState [Ev.enq trkA, Ev.finish none]) true
        (Except.ok trkB) =
      { runEv initState [Ev.enq trkA, Ev.finish none] with
          current_track := some trkB, vcPlaying := true, timerLive := false,
          played :=
            (runEv initState [Ev.enq trkA, Ev.finish none]).played
              ++ [trkB] }) ∧
    (playCmd (runEv initState [Ev.enq trkA]) true (Except.ok trkB) =
      { runEv initState [Ev.enq trkA] with
          queue := (runEv initState [Ev.enq trkA]).queue ++ [trkB] }) :=
  ⟨(C6_enqueue_behaviour [Ev.enq trkA, Ev.finish none] trkB).1
      (by decide) (by decide),
   (C6_enqueue_behaviour [Ev.enq trkA] trkB).2 (by decide)⟩

/-- Claim C7: a stale inactivity-timer fire is a no-op: the timeout body
re-validates the registry and the voice client after its sleep, so it
changes nothing when the session has been torn down (no registry entry),
and it never tears down a session whose voice client is actively
playing. -/
theorem C7_stale_timer (w : World) (gid : Nat) (ge : Bool) :
    (dictGet gid w.guild_states = none →
      disconnect_after_timeout w gid ge = w) ∧
    (∀ v, dictGet gid w.voice_clients = some v → v.playing = true →
      disconnect_after_timeout w gid ge = w) := by
  constructor
  · intro h
    cases ge
    · rfl
    · simp [disconnect_after_timeout, h]
  · intro v hv hp
    cases ge
    · rfl
    · cases hg : dictGet gid w.guild_states with
      | none => simp [disconnect_after_timeout, hg]
      | some g => simp [disconnect_after_timeout, hg, hv, hp]

/-- Witness for C7: a fire after teardown and a fire with playback
resumed both leave the world unchanged. -/
theorem C7_stale_timer_witness :
    disconnect_after_timeout wEmpty 1 true = wEmpty ∧
    disconnect_after_timeout wPlaying 1 true = wPlaying :=
  ⟨(C7_stale_timer wEmpty 1 true).1 rfl,
   (C7_stale_timer wPlaying 1 true).2
      { connected := true, playing := true, paused := false } rfl rfl⟩

/-- Claim C8: a /play whose media resolution fails leaves the session
state unchanged by the failed request: nothing is enqueued (the queue is
exactly as before, so other queued tracks are unaffected), the current
track and the timer are untouched; a /play rejected before connecting
(caller not in a voice channel) changes nothing at all. -/
theorem C8_resolution_failure (s : PlayerState) (msg : String) :
    (playCmd s true (Except.error msg)).queue = s.queue ∧
    (playCmd s true (Except.error msg)).current_track = s.current_track ∧
    (playCmd s true (Except.error msg)).timerLive = s.timerLive ∧
    playCmd s false (Except.error msg) = s := by
  obtain ⟨q, c, tl, cn, vp, vpa, pl⟩ := s
  exact ⟨rfl, rfl, rfl, rfl⟩

/-- Claim C9: when the first extraction phase yields a collection, the
resolver deterministically selects the first entry, and the rest of the
collection is irrelevant to the produced track; an empty collection
fails with a resolution error instead of producing a partial track. -/
theorem C9_first_entry (search : String) (rq : Nat) (d : YTData)
    (e : YTEntry) (rest : List YTEntry) (f : String → Option YTData) :
    (d.entries = some (e :: rest) →
      create_source search rq (some d) f =
        create_source search rq
          (some { entries := some [e], self := d.self }) f ∧
      pickFirstEntry d ("Could not find anything matching " ++ search) =
        Except.ok e) ∧
    (d.entries = some [] →
      create_source search rq (some d) f =
        Except.error ("Could not find anything matching " ++ search)) := by
  constructor
  · intro h
    constructor
    · simp [create_source, pickFirstEntry, h]
    · simp [pickFirstEntry, h]
  · intro h
    simp [create_source, pickFirstEntry, h]

/-- Witness for C9 on a two-element collection and on an empty one. -/
theorem C9_first_entry_witness :
    (create_source "q" 5 (some dColl) (fun _ => none) =
      create_source "q" 5
        (some { entries := some [entE], self := dColl.self })
        (fun _ => none) ∧
     pickFirstEntry dColl ("Could not find anything matching " ++ "q") =
       Except.ok entE) ∧
    create_source "q" 5 (some dEmpty) (fun _ => none) =
      Except.error ("Could not find anything matching " ++ "q") :=
  ⟨(C9_first_entry "q" 5 dColl entE [entF] (fun _ => none)).1 rfl,
   (C9_first_entry "q" 5 dEmpty entE [] (fun _ => none)).2 rfl⟩

/-- Claim C10: get_guild_state inserts a fresh empty GuildState on a
registry miss, and so do the handlers built on it, including the
read-only /queue view and a /stop issued while no voice client exists;
a registry lookup is never registry-neutral on a miss. -/
theorem C10_registry_insert (w : World) (gid : Nat)
    (h : dictGet gid w.guild_states = none) :
    dictGet gid (get_guild_state w gid).2.guild_states = some freshG ∧
    dictGet gid (queueCmd w gid).1.guild_states = some freshG ∧
    (dictGet gid w.voice_clients = none →
      dictGet gid (stopCmd w gid).1.guild_states = some freshG) := by
  refine ⟨?_, ?_, ?_⟩
  · simp [get_guild_state, h, lookup_append_fresh _ _ _ h]
  · simp [queueCmd, get_guild_state, h, lookup_append_fresh _ _ _ h]
  · intro hv
    simp [stopCmd, get_guild_state, h, hv, lookup_append_fresh _ _ _ h]

/-- Witness for C10 on the empty world. -/
theorem C10_registry_insert_witness :
    dictGet 1 (get_guild_state wEmpty 1).2.guild_states = some freshG ∧
    dictGet 1 (queueCmd wEmpty 1).1.guild_states = some freshG ∧
    dictGet 1 (stopCmd wEmpty 1).1.guild_states = some freshG :=
  ⟨(C10_registry_insert wEmpty 1 rfl).1,
   (C10_registry_insert wEmpty 1 rfl).2.1,
   (C10_registry_insert wEmpty 1 rfl).2.2 rfl⟩

end YuiBot
